import Mathlib

/- Verification development for the strands-agent-team repository: a shallow
   embedding of the two gateway modules, src/app.py (text gateway) and
   src/voice_agent.py (voice gateway), together with theorems settling the
   behavioural claims about their request handlers. -/

/-- JSON values appearing in the payloads handled here: strings and numeric
literals. A number is carried as the literal text written in the source
(0.7 is carried as "0.7"); no arithmetic is ever performed on these values,
they are opaque payload data. -/
inductive JVal where
  | jstr (s : String)
  | jnum (lit : String)
deriving DecidableEq

/-- A Python dict with string keys, modelled as an association list in
insertion order. Keys of an actual dict are unique, and every lookup in this
development returns the first binding, so the model is exact on dicts. -/
abbrev PyDict (α : Type) : Type := List (String × α)

/-- Python d.get(k): the first binding of k in d, if any. -/
def pyGet {α : Type} : PyDict α → String → Option α
  | [], _ => none
  | p :: rest, k => if p.1 = k then some p.2 else pyGet rest k

/-- Python d.get(k, default). -/
def pyGetD {α : Type} (d : PyDict α) (k : String) (v : α) : α :=
  (pyGet d k).getD v

/-- Left-biased choice on Option, used to state "caller keys win" merge
semantics. -/
def optOr {α : Type} : Option α → Option α → Option α
  | some x, _ => some x
  | none, b => b

/-- Python's double-splat dict merge of d1 then d2 (the dict-literal that
spreads d1 first and d2 second): keys of d1 keep their position, taking d2's
value when d2 also binds them; keys bound only in d2 are appended in d2's
order. Later, i.e. caller, bindings win. -/
def pyMerge {α : Type} (d1 d2 : PyDict α) : PyDict α :=
  (d1.map (fun p => (p.1, (pyGet d2 p.1).getD p.2))) ++
    d2.filter (fun p => (pyGet d1 p.1).isNone)

/-- A fastapi HTTPException as delivered to the caller: the HTTP status code
of the response and its detail string. -/
structure HTTPException where
  status_code : Nat
  detail : String
deriving DecidableEq

/-- The Python exceptions that can be raised inside the try block of a
voice-gateway handler: a fastapi HTTPException raised by the handler itself,
or an httpx.RequestError raised by the outbound call (every transport-level
failure — DNS failure, connection refused, timeout — is a subclass of
httpx.RequestError). -/
inductive PyExn where
  | httpException (status_code : Nat) (detail : String)
  | requestError (message : String)
deriving DecidableEq

/-- Python str(e) for the exceptions above: starlette's HTTPException prints
as the status code, a colon and a space, then the detail; for a RequestError
it is the message of the underlying transport error. -/
def pyStr : PyExn → String
  | .httpException status_code detail => toString status_code ++ ": " ++ detail
  | .requestError message => message

/-- Outcome of one outbound httpx POST as observed by the handler: either a
reply, carrying the status code, the body text, and the parse of the body
that the success path reads via response.json(); or an httpx.RequestError
(transport-level failure), carrying the underlying error's message. -/
inductive UpstreamOutcome (J : Type) where
  | reply (status_code : Nat) (text : String) (json : J)
  | transportError (message : String)

/-- The except-clause ladder shared by both voice-gateway handlers, applied
to the outcome of the try block: except httpx.RequestError yields HTTP 503
with a fixed handler-specific detail, discarding the transport error's
message; the catch-all except Exception that follows turns any other
exception — including an HTTPException raised inside the try block — into
HTTP 500 with str(e) as detail. -/
def handleExceptions {α : Type} (unavailable_detail : String) :
    Except PyExn α → Except HTTPException α
  | .ok a => .ok a
  | .error (.requestError _) => .error ⟨503, unavailable_detail⟩
  | .error e => .error ⟨500, pyStr e⟩

/- ===== Voice gateway: src/voice_agent.py ===== -/

/-- Request model VoiceQuery of src/voice_agent.py. -/
structure VoiceQuery where
  transcribed_text : String
  session_id : Option String := none
deriving DecidableEq

/-- Response model VoiceResponse of src/voice_agent.py. -/
structure VoiceResponse where
  response : String
  session_id : Option String := none
deriving DecidableEq

/-- The JSON object returned by the text backend, as read by the voice
gateway: only string-valued fields are ever consulted. -/
abbrev BackendJson : Type := PyDict String

/-- The try block of query_voice_agent: POST the query to the backend; if
the reply's status code differs from 200, raise HTTPException with that
status and the fixed detail "Error from backend agent" (the body is only
logged); on status 200, unwrap the response field of the reply's JSON,
defaulting to the empty string, and echo the caller's session id. -/
def query_voice_agent_body (query : VoiceQuery)
    (outcome : UpstreamOutcome BackendJson) : Except PyExn VoiceResponse :=
  match outcome with
  | .transportError message => .error (.requestError message)
  | .reply status_code _text backend_response =>
    if status_code ≠ 200 then
      .error (.httpException status_code "Error from backend agent")
    else
      .ok ⟨pyGetD backend_response "response" "", query.session_id⟩

/-- The handler query_voice_agent: the try block above wrapped in its except
clauses, with the 503 detail "Unable to reach backend service". -/
def query_voice_agent (query : VoiceQuery)
    (outcome : UpstreamOutcome BackendJson) : Except HTTPException VoiceResponse :=
  handleExceptions "Unable to reach backend service"
    (query_voice_agent_body query outcome)

/-- An Ultravox payload or reply: a JSON object with arbitrary values. -/
abbrev UDict : Type := PyDict JVal

/-- The fixed default call data of create_voice_call. -/
def defaultCallData : UDict :=
  [("systemPrompt", .jstr "You are a helpful voice assistant powered by Strands Agent Team. Answer questions concisely and naturally."),
   ("model", .jstr "fixie-ai/ultravox"),
   ("temperature", .jnum "0.7")]

/-- Python truthiness applied by the expression that takes call_config when
it is truthy and an empty dict otherwise: None and the empty dict are falsy,
so both give the empty dict. -/
def configOrEmpty : Option UDict → UDict
  | none => []
  | some d => if d.isEmpty then [] else d

/-- The call_data payload built by create_voice_call: the fixed defaults
spread first, then the caller's config (or the empty dict), caller keys
winning. -/
def createCallPayload (call_config : Option UDict) : UDict :=
  pyMerge defaultCallData (configOrEmpty call_config)

/-- The success body returned by create_voice_call: call_id and join_url as
read from the upstream JSON with .get (absent fields become None), plus the
constant status "created". -/
structure CallCreated where
  call_id : Option JVal
  join_url : Option JVal
  status : String
deriving DecidableEq

/-- The try block of create_voice_call: build the call_data payload, POST it
to the Ultravox call-creation endpoint (the environment env maps the sent
payload to the upstream outcome); if the reply's status code is not in the
list 200, 201, raise HTTPException with that status and the fixed detail
"Error creating call with Ultravox" (the body is only logged); otherwise
return call_id, join_url and the constant status "created". -/
def create_voice_call_body (call_config : Option UDict)
    (env : UDict → UpstreamOutcome UDict) : Except PyExn CallCreated :=
  let call_data := createCallPayload call_config
  match env call_data with
  | .transportError message => .error (.requestError message)
  | .reply status_code _text call_response =>
    if status_code ∉ ([200, 201] : List Nat) then
      .error (.httpException status_code "Error creating call with Ultravox")
    else
      .ok ⟨pyGet call_response "call_id", pyGet call_response "join_url", "created"⟩

/-- The handler create_voice_call: the try block above wrapped in its except
clauses, with the 503 detail "Ultravox service unavailable". -/
def create_voice_call (call_config : Option UDict)
    (env : UDict → UpstreamOutcome UDict) : Except HTTPException CallCreated :=
  handleExceptions "Ultravox service unavailable"
    (create_voice_call_body call_config env)

/- ===== Text gateway: src/app.py ===== -/

/-- Outcome of one call to coordinator_agent.run: the completion string, or
an exception whose str(e) is the given message. -/
inductive AgentOutcome where
  | ok (completion : String)
  | exn (message : String)

/-- The coordinator agent, modelled as the function from query text to the
outcome of coordinator_agent.run on it. -/
abbrev AgentFn : Type := String → AgentOutcome

/-- Request model AgentRequest of src/app.py: a query string and an optional
context object defaulting to the empty dict. -/
structure AgentRequest where
  query : String
  context : PyDict JVal := []

/-- Response model AgentResponse of src/app.py. -/
structure AgentResponse where
  response : String
  status : String
deriving DecidableEq

/-- The handler process_query: run the agent on request.query; on success
return the completion wrapped in a success envelope; if the agent raises,
the except clause yields HTTP 500 with str(e) as detail. The context field
of the request is never consulted. -/
def process_query (agent : AgentFn) (request : AgentRequest) :
    Except HTTPException AgentResponse :=
  match agent request.query with
  | .ok response => .ok ⟨response, "success"⟩
  | .exn message => .error ⟨500, message⟩

/-- Python str.split applied with the single-space separator, on the
character list of the string: splits at every space, keeping empty pieces,
and yields one (empty) piece on the empty string. -/
def pySplitSpace : List Char → List (List Char)
  | [] => [[]]
  | c :: rest =>
    match pySplitSpace rest with
    | [] => [[c]]
    | h :: t => if c = ' ' then [] :: h :: t else (c :: h) :: t

/-- The chunks yielded by the generator of process_query_streaming for a
completed response: the response split on spaces, each piece with one space
appended. -/
def streamChunks (response : String) : List String :=
  (pySplitSpace response.data).map (fun cs => String.mk (cs ++ [' ']))

/-- What the generator inside process_query_streaming produces when the
streaming transport runs it: the agent call happens first, so if it raises,
no chunk is yielded and the exception escapes mid-stream; otherwise all
chunks of the completion are yielded. -/
def generate (agent : AgentFn) (query : String) : Except String (List String) :=
  match agent query with
  | .ok response => .ok (streamChunks response)
  | .exn message => .error message

/-- What the process_query_streaming handler can hand to the server: a
StreamingResponse (HTTP 200 with the generator as body — an error value
inside means the generator raises while the body is being produced, after
the handler has returned), or an HTTPException from the handler's except
clause. -/
inductive StreamingResult where
  | streamingResponse (body : Except String (List String))
  | httpError (e : HTTPException)

/-- The handler process_query_streaming. Its try block only defines the
generator and constructs the StreamingResponse; neither step can raise, and
coordinator_agent.run executes lazily inside the generator only after the
handler has returned, so the except clause of the handler is never reached
on an agent failure and the handler always returns a StreamingResponse. -/
def process_query_streaming (agent : AgentFn) (request : AgentRequest) :
    StreamingResult :=
  .streamingResponse (generate agent request.query)

/-- Concatenation of all chunks emitted over the streaming transport. -/
def concatChunks (chunks : List String) : String :=
  String.mk (chunks.map String.data).flatten

/-- Whether a handler result is a StreamingResponse. -/
def isStreaming : StreamingResult → Bool
  | .streamingResponse _ => true
  | .httpError _ => false

/-- Stripping all trailing separator characters (the separator is the
space) from a string, as in Python rstrip with the space argument. -/
def rstripSpaces (s : String) : String :=
  String.mk (s.data.reverse.dropWhile (fun c => c = ' ')).reverse

/-- A concrete agent whose completion ends in a space. -/
def agentTrailing : AgentFn := fun _ => .ok "hi "

/-- A concrete agent with a two-word completion. -/
def twoWordAgent : AgentFn := fun _ => .ok "a b"

/-- A concrete agent that raises on every query. -/
def raisingAgent : AgentFn := fun _ => .exn "kaboom"

/-- A concrete agent that succeeds on the query "ok" and raises otherwise. -/
def sampleAgent : AgentFn := fun q => if q = "ok" then .ok "done" else .exn "boom"

/- ===== Helper lemmas ===== -/

/-- Lookup distributes over list append, preferring the left list. -/
theorem pyGet_append {α : Type} (l1 l2 : PyDict α) (k : String) :
    pyGet (l1 ++ l2) k = optOr (pyGet l1 k) (pyGet l2 k) := by
  induction l1 with
  | nil => rfl
  | cons p rest ih =>
    by_cases h : p.1 = k
    · simp [pyGet, h, optOr]
    · simp [pyGet, h, ih]

/-- Lookup after a key-preserving value rewrite of every binding. -/
theorem pyGet_map_override {α : Type} (g : String → α → α) (l : PyDict α)
    (k : String) :
    pyGet (l.map (fun p => (p.1, g p.1 p.2))) k = (pyGet l k).map (g k) := by
  induction l with
  | nil => rfl
  | cons p rest ih =>
    by_cases h : p.1 = k
    · subst h; simp [pyGet]
    · simp [pyGet, h, ih]

/-- Filtering with a predicate that keeps every binding of the key k leaves
the lookup of k unchanged. -/
theorem pyGet_filter_keeps {α : Type} (P : String × α → Bool) (l : PyDict α)
    (k : String) (h : ∀ p : String × α, p.1 = k → P p = true) :
    pyGet (l.filter P) k = pyGet l k := by
  induction l with
  | nil => rfl
  | cons p rest ih =>
    by_cases hk : p.1 = k
    · rw [List.filter_cons, h p hk]
      simp [pyGet, hk]
    · rw [List.filter_cons]
      cases hP : P p
      · simp [pyGet, hk, ih]
      · simp [pyGet, hk, ih]

/-- Filtering with a predicate that drops every binding of the key k makes
the lookup of k fail. -/
theorem pyGet_filter_drops {α : Type} (P : String × α → Bool) (l : PyDict α)
    (k : String) (h : ∀ p : String × α, p.1 = k → P p = false) :
    pyGet (l.filter P) k = none := by
  induction l with
  | nil => rfl
  | cons p rest ih =>
    by_cases hk : p.1 = k
    · rw [List.filter_cons, h p hk]
      simpa using ih
    · rw [List.filter_cons]
      cases hP : P p
      · simpa using ih
      · simp [pyGet, hk, ih]

/-- Lookup in a Python dict merge: the second, caller-side dict wins on the
keys it binds, and the first dict answers the rest. -/
theorem pyGet_pyMerge {α : Type} (d1 d2 : PyDict α) (k : String) :
    pyGet (pyMerge d1 d2) k = optOr (pyGet d2 k) (pyGet d1 k) := by
  unfold pyMerge
  rw [pyGet_append, pyGet_map_override (fun key v => (pyGet d2 key).getD v)]
  cases h1 : pyGet d1 k with
  | none =>
    rw [pyGet_filter_keeps _ _ _ (fun p hp => by rw [hp, h1]; rfl)]
    cases h2 : pyGet d2 k <;> simp [optOr]
  | some v =>
    rw [pyGet_filter_drops _ _ _ (fun p hp => by rw [hp, h1]; rfl)]
    cases h2 : pyGet d2 k <;> simp [optOr]

/-- The space-split of a character list is never the empty list of pieces. -/
theorem pySplitSpace_ne_nil (l : List Char) : pySplitSpace l ≠ [] := by
  cases l with
  | nil => simp [pySplitSpace]
  | cons c rest =>
    unfold pySplitSpace
    cases pySplitSpace rest with
    | nil => simp
    | cons h t =>
      by_cases hc : c = ' ' <;> simp [hc]

/-- Appending one space to every piece of the space-split and flattening
recovers the original characters followed by exactly one space. -/
theorem pySplitSpace_flatten (l : List Char) :
    ((pySplitSpace l).map (fun cs => cs ++ [' '])).flatten = l ++ [' '] := by
  induction l with
  | nil => simp [pySplitSpace]
  | cons c rest ih =>
    unfold pySplitSpace
    cases hs : pySplitSpace rest with
    | nil => exact absurd hs (pySplitSpace_ne_nil rest)
    | cons h t =>
      rw [hs] at ih
      by_cases hc : c = ' '
      · subst hc
        simpa using ih
      · simp only [if_neg hc, List.map_cons, List.flatten_cons, List.cons_append,
          List.append_assoc] at ih ⊢
        simpa using ih

/-- Concatenating all chunks of a completion yields the completion followed
by exactly one space. -/
theorem concatChunks_streamChunks (s : String) :
    concatChunks (streamChunks s) = s ++ " " := by
  unfold concatChunks streamChunks
  rw [List.map_map]
  have hmap : (String.data ∘ fun cs => String.mk (cs ++ [' '])) =
      fun cs => cs ++ [' '] := rfl
  rw [hmap, pySplitSpace_flatten]
  cases s with
  | mk data => rfl

/- ===== Claim theorems ===== -/

/-- Claim C1 (counterexample): at the concrete non-2xx reply 404 with body
"upstream-body", query_voice_agent does not fail with the upstream status
404 and the upstream body as detail; the HTTPException it raised inside the
try block is caught by its own catch-all except clause and rewrapped, so the
caller receives status 500 with the string form of the inner exception as
detail, and the upstream body appears nowhere in it. -/
theorem query_voice_agent_404_counterexample :
    query_voice_agent ⟨"hello", some "sess-1"⟩ (.reply 404 "upstream-body" []) =
      .error ⟨500, "404: Error from backend agent"⟩ ∧
    ((500 : Nat) == 404) = false := ⟨rfl, rfl⟩

/-- Claim C1 (amended): for every backend reply whose status code is not
200, the inner exception raised by query_voice_agent does carry the upstream
status code with the fixed detail "Error from backend agent" (the upstream
body is only logged, never returned), but that exception is caught by the
handler's own catch-all except clause, so the error returned to the caller
has status 500 — not the upstream status — with str of the inner exception
as detail. -/
theorem query_voice_agent_non200_rewrapped (query : VoiceQuery)
    (status_code : Nat) (text : String) (backend_response : BackendJson)
    (h : status_code ≠ 200) :
    query_voice_agent_body query (.reply status_code text backend_response) =
      .error (.httpException status_code "Error from backend agent") ∧
    query_voice_agent query (.reply status_code text backend_response) =
      .error ⟨500, pyStr (.httpException status_code "Error from backend agent")⟩ := by
  constructor
  · simp [query_voice_agent_body, h]
  · simp [query_voice_agent, query_voice_agent_body, handleExceptions, h]

/-- Witness for the amended claim C1, at the reply 404 with body "nf". -/
theorem query_voice_agent_non200_rewrapped_witness :
    query_voice_agent_body ⟨"hi", some "s1"⟩ (.reply 404 "nf" []) =
      .error (.httpException 404 "Error from backend agent") ∧
    query_voice_agent ⟨"hi", some "s1"⟩ (.reply 404 "nf" []) =
      .error ⟨500, pyStr (.httpException 404 "Error from backend agent")⟩ :=
  query_voice_agent_non200_rewrapped ⟨"hi", some "s1"⟩ 404 "nf" [] (by decide)

/-- Claim C2 (counterexample): at the concrete reply 418 with body
"upstream-teapot-body", create_voice_call does not fail with the upstream
status 418 nor return the upstream body: the inner HTTPException is caught
by the handler's own catch-all except clause, and the caller receives
status 500 with the string form of the inner exception as detail. -/
theorem create_voice_call_418_counterexample :
    create_voice_call none (fun _ => .reply 418 "upstream-teapot-body" []) =
      .error ⟨500, "418: Error creating call with Ultravox"⟩ ∧
    ((500 : Nat) == 418) = false := ⟨rfl, rfl⟩

/-- Claim C2 (amended): create_voice_call treats exactly the status codes
200 and 201 as success, returning call_id, join_url and the constant status
"created"; on any other status code the inner exception it raises does carry
the upstream status with the fixed detail "Error creating call with
Ultravox" (the upstream body is only logged, never returned), but the
handler's own catch-all except clause rewraps it, so the caller receives
status 500 with str of the inner exception as detail, not the upstream
status. -/
theorem create_voice_call_status_handling (call_config : Option UDict)
    (status_code : Nat) (text : String) (call_response : UDict)
    (h200 : status_code ≠ 200) (h201 : status_code ≠ 201) :
    create_voice_call_body call_config (fun _ => .reply status_code text call_response) =
      .error (.httpException status_code "Error creating call with Ultravox") ∧
    create_voice_call call_config (fun _ => .reply status_code text call_response) =
      .error ⟨500, pyStr (.httpException status_code "Error creating call with Ultravox")⟩ ∧
    ∀ ok_code : Nat, ok_code = 200 ∨ ok_code = 201 →
      create_voice_call call_config (fun _ => .reply ok_code text call_response) =
        .ok ⟨pyGet call_response "call_id", pyGet call_response "join_url", "created"⟩ := by
  refine ⟨?_, ?_, ?_⟩
  · simp [create_voice_call_body, h200, h201]
  · simp [create_voice_call, create_voice_call_body, handleExceptions, h200, h201]
  · intro ok_code hok
    rcases hok with h | h <;> subst h <;>
      simp [create_voice_call, create_voice_call_body, handleExceptions]

/-- Witness for the amended claim C2: the reply 418 is rewrapped to a 500,
and the reply 201 is accepted as success. -/
theorem create_voice_call_status_handling_witness :
    create_voice_call none (fun _ => .reply 418 "teapot" [("call_id", JVal.jstr "abc")]) =
      .error ⟨500, pyStr (.httpException 418 "Error creating call with Ultravox")⟩ ∧
    create_voice_call none (fun _ => .reply 201 "teapot" [("call_id", JVal.jstr "abc")]) =
      .ok ⟨some (JVal.jstr "abc"), none, "created"⟩ := by
  have h := create_voice_call_status_handling none 418 "teapot"
    [("call_id", JVal.jstr "abc")] (by decide) (by decide)
  exact ⟨h.2.1, h.2.2 201 (Or.inr rfl)⟩

/-- Claim C3 (counterexample): for an agent whose completion ends in a
space, the concatenation of the emitted chunks stripped of all trailing
separator characters is "hi", which differs from the non-streaming response
"hi " — the claimed equality fails on completions with trailing spaces. -/
theorem streaming_rstrip_counterexample :
    process_query agentTrailing ⟨"q", []⟩ = .ok ⟨"hi ", "success"⟩ ∧
    process_query_streaming agentTrailing ⟨"q", []⟩ =
      .streamingResponse (.ok ["hi ", " "]) ∧
    concatChunks ["hi ", " "] = "hi  " ∧
    rstripSpaces "hi  " = "hi" ∧
    ("hi" == "hi ") = false := ⟨rfl, rfl, rfl, rfl, rfl⟩

/-- Claim C3 (amended): for every query on which the agent invocation
succeeds, the concatenation of all chunks emitted by process_query_streaming
equals the response string returned by process_query followed by exactly one
separator, so removing that single trailing separator recovers the response
exactly; stripping all trailing separator characters recovers it only when
the response itself does not end in a space. Streaming is a pure re-chunking
of the same completion. -/
theorem streaming_rechunking (agent : AgentFn) (request : AgentRequest)
    (r : String) (h : agent request.query = .ok r) :
    process_query_streaming agent request = .streamingResponse (.ok (streamChunks r)) ∧
    concatChunks (streamChunks r) = r ++ " " ∧
    (concatChunks (streamChunks r)).data.dropLast = r.data ∧
    process_query agent request = .ok ⟨r, "success"⟩ := by
  refine ⟨?_, concatChunks_streamChunks r, ?_, ?_⟩
  · simp [process_query_streaming, generate, h]
  · rw [concatChunks_streamChunks r]
    cases r with
    | mk data =>
      show (data ++ [' ']).dropLast = data
      simp
  · simp [process_query, h]

/-- Witness for the amended claim C3, at a two-word completion. -/
theorem streaming_rechunking_witness :
    process_query_streaming twoWordAgent ⟨"q", []⟩ =
      .streamingResponse (.ok (streamChunks "a b")) ∧
    concatChunks (streamChunks "a b") = "a b" ++ " " ∧
    (concatChunks (streamChunks "a b")).data.dropLast = "a b".data ∧
    process_query twoWordAgent ⟨"q", []⟩ = .ok ⟨"a b", "success"⟩ :=
  streaming_rechunking twoWordAgent ⟨"q", []⟩ "a b" rfl

/-- Claim C4 (code divergence): when the agent invocation raises,
process_query_streaming does not fail with an HTTP 500 — the handler has
already returned an HTTP 200 StreamingResponse, and the exception escapes
while the generator produces the body, because coordinator_agent.run runs
lazily inside the generator after the handler returned; the handler's except
clause is unreachable for agent failures, so no handler result is ever an
HTTP error. -/
theorem streaming_exception_not_500 :
    process_query_streaming raisingAgent ⟨"boom", []⟩ =
      .streamingResponse (.error "kaboom") ∧
    ∀ (agent : AgentFn) (request : AgentRequest),
      isStreaming (process_query_streaming agent request) = true :=
  ⟨rfl, fun _ _ => rfl⟩

/-- Claim C5: the payload create_voice_call sends upstream is the fixed
default map — systemPrompt the fixed prompt, model "fixie-ai/ultravox",
temperature 0.7 — shallowly overridden by the caller's map with caller keys
winning: with no config the payload is exactly the defaults, and every key
of the payload resolves to the caller's value when the caller binds it and
to the default value otherwise. -/
theorem create_call_payload_defaults_and_merge :
    createCallPayload none = defaultCallData ∧
    pyGet defaultCallData "model" = some (JVal.jstr "fixie-ai/ultravox") ∧
    pyGet defaultCallData "temperature" = some (JVal.jnum "0.7") ∧
    ∀ (cfg : UDict) (k : String),
      pyGet (createCallPayload (some cfg)) k =
        optOr (pyGet cfg k) (pyGet defaultCallData k) := by
  refine ⟨rfl, rfl, rfl, ?_⟩
  intro cfg k
  unfold createCallPayload configOrEmpty
  by_cases hc : cfg.isEmpty
  · have hnil : cfg = [] := List.isEmpty_iff.mp hc
    subst hnil
    simp [pyGet_pyMerge, pyGet, optOr]
  · simp only [if_neg hc]
    exact pyGet_pyMerge defaultCallData cfg k

/-- Claim C6: for every backend reply with status 200, query_voice_agent
returns the upstream JSON's response field — defaulting to the empty string
when absent — and echoes the caller's session id unchanged; in particular a
reply carrying response "ok" yields response "ok" with the input session
id. -/
theorem query_voice_agent_success_unwraps :
    (∀ (transcribed_text : String) (session_id : Option String)
        (text : String) (backend_response : BackendJson),
      query_voice_agent ⟨transcribed_text, session_id⟩
          (.reply 200 text backend_response) =
        .ok ⟨pyGetD backend_response "response" "", session_id⟩) ∧
    (∀ (transcribed_text : String) (session_id : Option String) (text : String),
      query_voice_agent ⟨transcribed_text, session_id⟩
          (.reply 200 text [("response", "ok")]) =
        .ok ⟨"ok", session_id⟩) :=
  ⟨fun _ _ _ _ => rfl, fun _ _ _ => rfl⟩

/-- Claim C7: every transport-level failure of the outbound call — any
httpx.RequestError, whatever its message — makes query_voice_agent fail
with HTTP 503 and the fixed detail "Unable to reach backend service", and
makes create_voice_call fail with HTTP 503 and the fixed detail "Ultravox
service unavailable"; the result is a constant, so no detail of the
underlying transport error reaches the caller. -/
theorem transport_failure_503_generic :
    (∀ (query : VoiceQuery) (message : String),
      query_voice_agent query (.transportError message) =
        .error ⟨503, "Unable to reach backend service"⟩) ∧
    (∀ (call_config : Option UDict) (message : String),
      create_voice_call call_config (fun _ => .transportError message) =
        .error ⟨503, "Ultravox service unavailable"⟩) :=
  ⟨fun _ _ => rfl, fun _ _ => rfl⟩

/-- Claim C8: whenever the agent invocation succeeds, process_query returns
an envelope whose response field is the agent's completion and whose status
field is "success"; whenever the agent invocation raises, process_query
fails with HTTP 500 carrying the exception's textual message as detail. -/
theorem process_query_envelope (agent : AgentFn) (request : AgentRequest) :
    (∀ r, agent request.query = .ok r →
      process_query agent request = .ok ⟨r, "success"⟩) ∧
    (∀ m, agent request.query = .exn m →
      process_query agent request = .error ⟨500, m⟩) := by
  constructor <;> intro x hx <;> simp [process_query, hx]

/-- Witness for claim C8, on an agent that succeeds on "ok" and raises on
everything else. -/
theorem process_query_envelope_witness :
    process_query sampleAgent ⟨"ok", []⟩ = .ok ⟨"done", "success"⟩ ∧
    process_query sampleAgent ⟨"bad", []⟩ = .error ⟨500, "boom"⟩ :=
  ⟨(process_query_envelope sampleAgent ⟨"ok", []⟩).1 "done" rfl,
   (process_query_envelope sampleAgent ⟨"bad", []⟩).2 "boom" rfl⟩

/-- Claim C9: the context map of a request is accepted but never forwarded
to the agent — for any two context maps, process_query and
process_query_streaming give identical results, so the output depends only
on the query text. -/
theorem context_not_forwarded (agent : AgentFn) (q : String)
    (c1 c2 : PyDict JVal) :
    process_query agent ⟨q, c1⟩ = process_query agent ⟨q, c2⟩ ∧
    process_query_streaming agent ⟨q, c1⟩ = process_query_streaming agent ⟨q, c2⟩ :=
  ⟨rfl, rfl⟩

/-- Claim C10: create_voice_call invoked with the explicitly supplied empty
map behaves identically to being invoked with no map at all — in both cases
the payload sent upstream is exactly the fixed default map, and for every
upstream environment both invocations return the same result. -/
theorem create_voice_call_empty_config_eq_none :
    createCallPayload (some []) = defaultCallData ∧
    createCallPayload none = defaultCallData ∧
    ∀ env : UDict → UpstreamOutcome UDict,
      create_voice_call (some []) env = create_voice_call none env :=
  ⟨rfl, rfl, fun _ => rfl⟩
